import Mathlib

/-!
Verification development for a momentum-breakout trading system
(screener / signaller / executor pipeline over daily OHLCV bars).

The Python source is embedded shallowly:
* a pandas DataFrame row becomes a `Bar` of rationals (exact arithmetic in
  place of IEEE floats; every computation of the source on these claims is
  plain field arithmetic, comparisons and floors, which ℚ models exactly);
* positional indexing replaces the date index (the source's dates are unique
  and strictly increasing, so `index.get_loc` is positional lookup);
* code that can raise is embedded as `Option`/`Except`, `none`/`.error ()`
  standing for the raised exception (or, inside the executor's try/except
  blocks, for the returned error dict);
* a Python expression that would raise `ZeroDivisionError` on the inputs a
  claim quantifies over is guarded explicitly where that matters.
-/

attribute [local semireducible] Rat.add Rat.mul Rat.inv Rat.sub

/-- One daily OHLCV bar.  The `Open` column is never read by any function a
claim mentions, so it is omitted; volume is kept as a rational since only its
mean is ever taken. -/
structure Bar where
  high : ℚ
  low : ℚ
  close : ℚ
  volume : ℚ
deriving DecidableEq, Repr

/-! ## Configuration constants (config.py) -/

def MIN_PRICE : ℚ := 3
def MIN_VOLUME : ℚ := 300000
def SMA_PERIOD : Nat := 50
def RISER_WINDOW : Nat := 63
def CONSOLIDATION_MIN_DAYS : Nat := 4
def CONSOLIDATION_MAX_DAYS : Nat := 40
def MAX_RETRACEMENT : ℚ := 25
def UPPER_BUFFER : ℚ := 1/100
def LOWER_BUFFER : ℚ := 1/100
def BREAKOUT_BUFFER : ℚ := 2/100
def ACCOUNT_EQUITY : ℚ := 100000
def MAX_RISK_PERCENT : ℚ := 2
def ATR_PERIOD : Nat := 14
def TRAILING_SMA_PERIOD : Nat := 10

/-- pandas `Series.mean`: sum divided by length. -/
def meanQ (l : List ℚ) : ℚ := l.sum / (l.length : ℚ)

/-! ## Screener (screener.py) -/

/-- screener.py `calculate_50_day_average_volume`: 0 when fewer than 50 bars,
else the mean volume of the last 50 bars (`iloc[-50:]` = drop all but 50). -/
def calculate_50_day_average_volume (s : List Bar) : ℚ :=
  if s.length < SMA_PERIOD then 0
  else meanQ ((s.drop (s.length - SMA_PERIOD)).map Bar.volume)

/-- screener.py `calculate_50_day_sma`: 0 when fewer than 50 bars, else the
mean close of the last 50 bars. -/
def calculate_50_day_sma (s : List Bar) : ℚ :=
  if s.length < SMA_PERIOD then 0
  else meanQ ((s.drop (s.length - SMA_PERIOD)).map Bar.close)

/-- Reason tags for the screener's (passed, message) results; each constructor
stands for one distinct reason string of screener.py. -/
inductive ScreenReason where
  | priceTooLow
  | volumeTooLow
  | insufficientSma
  | priceBelowSma
  | pass
deriving DecidableEq, Repr

/-- screener.py `liquidity_filter`.  `none` models the IndexError that
`Close.iloc[-1]` raises on an empty series; otherwise the returned pair is
(passed, reason). -/
def liquidity_filter (s : List Bar) : Option (Bool × ScreenReason) :=
  match s.getLast? with
  | none => none
  | some lastBar =>
    let current_price := lastBar.close
    if current_price < MIN_PRICE then some (false, .priceTooLow)
    else
      let avg_volume := calculate_50_day_average_volume s
      if avg_volume < MIN_VOLUME then some (false, .volumeTooLow)
      else some (true, .pass)

/-- screener.py `trend_filter`.  `none` models the IndexError on an empty
series.  Note the `sma_50 == 0` guard fires for any series shorter than 50
bars. -/
def trend_filter (s : List Bar) : Option (Bool × ScreenReason) :=
  match s.getLast? with
  | none => none
  | some lastBar =>
    let current_price := lastBar.close
    let sma_50 := calculate_50_day_sma s
    if sma_50 = 0 then some (false, .insufficientSma)
    else if current_price ≤ sma_50 then some (false, .priceBelowSma)
    else some (true, .pass)

/-! ## Executor: position sizing (executor.py `TradeExecutor`) -/

/-- The executor's read-only account configuration (constructor arguments of
`TradeExecutor.__init__`). -/
structure ExecConfig where
  account_equity : ℚ
  max_risk_percent : ℚ
deriving DecidableEq, Repr

/-- `self.max_risk_amount = account_equity * (max_risk_percent / 100)`. -/
def ExecConfig.max_risk_amount (c : ExecConfig) : ℚ :=
  c.account_equity * (c.max_risk_percent / 100)

/-- The default executor configuration (ACCOUNT_EQUITY, MAX_RISK_PERCENT). -/
def defaultConfig : ExecConfig := ⟨ACCOUNT_EQUITY, MAX_RISK_PERCENT⟩

/-- Python `int(x)` on a float: truncation toward zero. -/
def pythonInt (x : ℚ) : ℤ :=
  if 0 ≤ x then ⌊x⌋ else -⌊-x⌋

/-- The success dict returned by `calculate_position_size`. -/
structure PositionDetails where
  shares : ℤ
  entry_price : ℚ
  stop_loss : ℚ
  risk_per_share : ℚ
  position_value : ℚ
  position_pct : ℚ
  risk_amount : ℚ
  risk_percent : ℚ
  max_risk_allowed : ℚ
  risk_utilization : ℚ
deriving DecidableEq, Repr

/-- executor.py `TradeExecutor.calculate_position_size`.  `.error ()` is the
`{"error": "Entry must be > stop loss"}` dict.  Divisions by
`account_equity` and `max_risk_amount` are total in ℚ; the claims only
exercise configurations where both are positive, matching Python floats. -/
def calculate_position_size (c : ExecConfig) (entry_price stop_loss_price : ℚ) :
    Except Unit PositionDetails :=
  if entry_price ≤ stop_loss_price then .error ()
  else
    let risk_per_share := entry_price - stop_loss_price
    let max_shares := c.max_risk_amount / risk_per_share
    let shares := pythonInt max_shares
    let position_value := (shares : ℚ) * entry_price
    let actual_risk := (shares : ℚ) * risk_per_share
    .ok
      { shares := shares
        entry_price := entry_price
        stop_loss := stop_loss_price
        risk_per_share := risk_per_share
        position_value := position_value
        position_pct := position_value / c.account_equity * 100
        risk_amount := actual_risk
        risk_percent := actual_risk / c.account_equity * 100
        max_risk_allowed := c.max_risk_amount
        risk_utilization := actual_risk / c.max_risk_amount * 100 }

/-! ## Executor: ATR (executor.py `TradeExecutor.calculate_atr`) -/

/-- The true-range entries of the bars after the first, threaded with the
previous bar's close:
`max(high - low, |high - prev_close|, |low - prev_close|)`. -/
def trueRangeAux (prev : Bar) : List Bar → List ℚ
  | [] => []
  | b :: rest =>
    max (b.high - b.low) (max |b.high - prev.close| |b.low - prev.close|) ::
      trueRangeAux b rest

/-- The full true-range series.  Row 0 of the source's
`pd.concat([high_low, high_close_prev, low_close_prev], axis=1).max(axis=1)`
has NaN in both previous-close columns (`Close.shift(1)` of row 0), and
`DataFrame.max(axis=1)` skips NaN, so the row-0 true range collapses to
`high - low` — it is a number, not NaN. -/
def trueRangeList : List Bar → List ℚ
  | [] => []
  | b :: rest => (b.high - b.low) :: trueRangeAux b rest

/-- pandas `Series.rolling(window=p).mean()` with the default
`min_periods = p`: entry `i` is NaN (`none`) until `p` values fill the
window, then the mean of entries `i - p + 1 .. i`. -/
def rollingMean (p : Nat) (l : List ℚ) : List (Option ℚ) :=
  (List.range l.length).map fun i =>
    if p ≤ i + 1 then some (meanQ ((l.drop (i + 1 - p)).take p)) else none

/-- executor.py `TradeExecutor.calculate_atr`: the rolling mean of the true
range. -/
def calculate_atr (s : List Bar) (period : Nat) : List (Option ℚ) :=
  rollingMean period (trueRangeList s)

/-! ## Executor: stop loss (executor.py `TradeExecutor.calculate_stop_loss`) -/

/-- The success dict of `calculate_stop_loss`.  `stop_type_atr_adjusted`
models the `stop_loss_type` string (`true` = ATR_ADJUSTED, `false` =
LOW_OF_DAY); `atr_14` and `atr_multiple` are `Option` because the ATR at an
early entry index is NaN. -/
structure StopDetails where
  stop_loss_price : ℚ
  stop_type_atr_adjusted : Bool
  low_of_day : ℚ
  atr_14 : Option ℚ
  stop_distance : ℚ
  stop_adjusted : Bool
  atr_multiple : Option ℚ
deriving DecidableEq, Repr

/-- executor.py `TradeExecutor.calculate_stop_loss`.  The whole body sits in
`try/except`, so `.error ()` is the returned `{"error": ...}` dict for any
raised exception: a missing entry index (KeyError) or a zero current ATR
(Python float ZeroDivisionError computing `atr_multiple`).  A NaN ATR
(entry index before the first full window; `atr.loc[entry_date]` is always
the positional lookup since the ATR series shares the data's index) makes
`stop_distance > current_atr` False, so the stop stays at the low of day and
`atr_multiple` is NaN — no exception.  NOTE the source never checks the
resulting stop against 0 or `entry_price`. -/
def calculate_stop_loss (s : List Bar) (entry_price : ℚ) (entry_idx : Nat) :
    Except Unit StopDetails :=
  match s[entry_idx]? with
  | none => .error ()
  | some bar =>
    let low_of_day := bar.low
    let current_atr : Option ℚ := ((calculate_atr s ATR_PERIOD)[entry_idx]?).join
    let stop_distance := entry_price - low_of_day
    match current_atr with
    | none =>
      .ok
        { stop_loss_price := low_of_day
          stop_type_atr_adjusted := false
          low_of_day := low_of_day
          atr_14 := none
          stop_distance := entry_price - low_of_day
          stop_adjusted := false
          atr_multiple := none }
    | some a =>
      if a = 0 then .error ()
      else if a < stop_distance then
        .ok
          { stop_loss_price := entry_price - a
            stop_type_atr_adjusted := true
            low_of_day := low_of_day
            atr_14 := some a
            stop_distance := entry_price - (entry_price - a)
            stop_adjusted := true
            atr_multiple := some ((entry_price - (entry_price - a)) / a) }
      else
        .ok
          { stop_loss_price := low_of_day
            stop_type_atr_adjusted := false
            low_of_day := low_of_day
            atr_14 := some a
            stop_distance := entry_price - low_of_day
            stop_adjusted := false
            atr_multiple := some ((entry_price - low_of_day) / a) }

/-! ## Executor: trailing stop (executor.py `TradeExecutor.calculate_trailing_stop`) -/

/-- The rolling SMA value at offset `i` of a close series with window `p`:
mean of `closes[i-p+1 .. i]`.  Matches `sma.loc[date]` wherever the source
reads it, i.e. only at offsets with a full window (`p ≤ i + 1`). -/
def smaAt (closes : List ℚ) (p i : Nat) : ℚ :=
  meanQ ((closes.drop (i + 1 - p)).take p)

/-- One exit-signal dict of `calculate_trailing_stop` (dates replaced by the
offset within the post-entry segment). -/
structure ExitSignal where
  exit_offset : Nat
  exit_price : ℚ
  sma_10 : ℚ
  days_held : Nat
  profit_loss : ℚ
  profit_loss_pct : ℚ
deriving DecidableEq, Repr

/-- The exit-signal loop of executor.py lines 155-176: walk the offsets from
the entry bar, skip the first `sma_period - 1` (their SMA is NaN), and stop
at the FIRST offset whose close is strictly below its SMA (the source
`break`s after appending one signal). -/
def exitScanIdx (closes : List ℚ) (entry_price : ℚ) (p : Nat) (i : Nat) :
    Option ExitSignal :=
  if h : i < closes.length then
    if p ≤ i + 1 ∧ closes.getD i 0 < smaAt closes p i then
      some
        { exit_offset := i
          exit_price := closes.getD i 0
          sma_10 := smaAt closes p i
          days_held := i + 1
          profit_loss := closes.getD i 0 - entry_price
          profit_loss_pct := (closes.getD i 0 - entry_price) / entry_price * 100 }
    else exitScanIdx closes entry_price p (i + 1)
  else none
termination_by closes.length - i
decreasing_by omega

/-- The success dict of `calculate_trailing_stop`. -/
structure TrailingInfo where
  current_price : ℚ
  current_sma_10 : ℚ
  price_below_sma : Bool
  distance_to_sma : ℚ
  distance_pct : ℚ
  should_exit_now : Bool
  exit_signals : List ExitSignal
  days_since_entry : Nat
deriving DecidableEq, Repr

/-- executor.py `TradeExecutor.calculate_trailing_stop`.  `.error ()` covers:
entry index not in the data, fewer than `sma_period` post-entry bars, and —
because the whole body is inside `try/except` — the ZeroDivisionError paths
(last close 0 in `distance_pct`, entry price 0 in `profit_loss_pct` when a
crossing is found).  `current_sma_10` is the last rolling-SMA entry, whose
window is the last `sma_period` post-entry closes. -/
def calculate_trailing_stop (s : List Bar) (entry_price : ℚ) (entry_idx : Nat)
    (sma_period : Nat) : Except Unit TrailingInfo :=
  if entry_idx < s.length then
    let data_from_entry := s.drop entry_idx
    if data_from_entry.length < sma_period then .error ()
    else
      match s.getLast? with
      | none => .error ()
      | some lastBar =>
        let closes := data_from_entry.map Bar.close
        let current_sma := smaAt closes sma_period (closes.length - 1)
        let current_price := lastBar.close
        let exitSig := exitScanIdx closes entry_price sma_period 0
        if current_price = 0 then .error ()
        else if entry_price = 0 ∧ exitSig.isSome then .error ()
        else
          .ok
            { current_price := current_price
              current_sma_10 := current_sma
              price_below_sma := decide (current_price < current_sma)
              distance_to_sma := current_price - current_sma
              distance_pct := (current_price - current_sma) / current_price * 100
              should_exit_now := decide (current_price < current_sma)
              exit_signals := exitSig.toList
              days_since_entry := data_from_entry.length - 1 }
  else .error ()

/-! ## Signaller (signaller.py) -/

/-- Left-to-right scan extending pandas `idxmax`: starting from the best
(index, value) seen so far, replace it only on a strictly greater value, so
the first occurrence of the maximum wins — pandas' tie-break. -/
def argmaxGo (f : Bar → ℚ) : Nat × ℚ → Nat → List Bar → Nat × ℚ
  | best, _, [] => best
  | best, i, b :: rest =>
    if best.2 < f b then argmaxGo f (i, f b) (i + 1) rest
    else argmaxGo f best (i + 1) rest

/-- Left-to-right scan for pandas `idxmin`: first occurrence of the minimum
wins. -/
def argminGo (f : Bar → ℚ) : Nat × ℚ → Nat → List Bar → Nat × ℚ
  | best, _, [] => best
  | best, i, b :: rest =>
    if f b < best.2 then argminGo f (i, f b) (i + 1) rest
    else argminGo f best (i + 1) rest

/-- One tag per distinct failure message of signaller.py `consolidation`. -/
inductive ConsFailure where
  | insufficientData
  | peakIsLast
  | retracementTooDeep
  | tooShort
  | tooLong
  | rangeViolation
  | weakCloseDiscipline
deriving DecidableEq, Repr

/-- The `consolidation_info` dict of signaller.py, with dates replaced by
series positions.  All fields default to 0 and are filled in as the
corresponding subcomputation succeeds, exactly as the source initialises the
dict up front and updates it stepwise. -/
structure ConsInfo where
  peak_price : ℚ := 0
  peak_position : Nat := 0
  days_since_peak : Nat := 0
  retracement_pct : ℚ := 0
  retracement_low : ℚ := 0
  retracement_low_position : Nat := 0
  days_since_retracement : Nat := 0
  consolidation_high : ℚ := 0
  consolidation_high_position : Nat := 0
  consolidation_low : ℚ := 0
  range_width_pct : ℚ := 0
  range_height : ℚ := 0
  days_in_consolidation : Nat := 0
  close_percentage_in_range : ℚ := 0
  closes_in_range : Nat := 0
  total_days_in_range : Nat := 0
  current_price : ℚ := 0
  breakout_level : ℚ := 0
  stop_loss_level : ℚ := 0
  upper_bound_with_buffer : ℚ := 0
  lower_bound_with_buffer : ℚ := 0
deriving DecidableEq, Repr

/-- The all-defaults initial `consolidation_info`. -/
def defaultConsInfo : ConsInfo := {}

/-- signaller.py `consolidation`, step for step: peak of the trailing 63
bars (first-occurrence argmax of High), retracement low strictly after the
peak (first-occurrence argmin of Low), retracement cap, then
`days_in_consolidation = len(stock_data) - retracement_low_position`
(the source's line 150 — note this is one MORE than the
`last_index - retracement_low_position` its own comment describes), range
metrics over the segment from the retracement low, duration bounds, buffered
range-violation scan, and the 70% close-discipline check.  The result triple
is (passed, failure tag, info dict). -/
def consolidation (s : List Bar) : Bool × Option ConsFailure × ConsInfo :=
  if s.length < RISER_WINDOW then (false, some .insufficientData, defaultConsInfo)
  else
    match s.drop (s.length - RISER_WINDOW) with
    | [] => (false, some .insufficientData, defaultConsInfo)
    | b0 :: brest =>
      let pk := argmaxGo Bar.high (0, b0.high) 1 brest
      let peak_price := pk.2
      let peak_position := s.length - RISER_WINDOW + pk.1
      let info1 : ConsInfo :=
        { defaultConsInfo with
          peak_price := peak_price
          peak_position := peak_position
          days_since_peak := s.length - peak_position - 1 }
      match s.drop (peak_position + 1) with
      | [] => (false, some .peakIsLast, info1)
      | c0 :: crest =>
        let rl := argminGo Bar.low (0, c0.low) 1 crest
        let retracement_low := rl.2
        let retracement_low_position := peak_position + 1 + rl.1
        let retracement_pct := (peak_price - retracement_low) / peak_price * 100
        let info2 : ConsInfo :=
          { info1 with
            retracement_low := retracement_low
            retracement_low_position := retracement_low_position
            days_since_retracement := s.length - retracement_low_position - 1
            retracement_pct := retracement_pct }
        if MAX_RETRACEMENT ≤ retracement_pct then
          (false, some .retracementTooDeep, info2)
        else
          let days_in_consolidation := s.length - retracement_low_position
          let info3 : ConsInfo :=
            { info2 with days_in_consolidation := days_in_consolidation }
          match s.drop retracement_low_position with
          | [] =>
            -- unreachable: the retracement low is a position inside `s`
            if days_in_consolidation < CONSOLIDATION_MIN_DAYS then
              (false, some .tooShort, info3)
            else if CONSOLIDATION_MAX_DAYS < days_in_consolidation then
              (false, some .tooLong, info3)
            else (false, some .weakCloseDiscipline, info3)
          | d0 :: drest =>
            let ch := argmaxGo Bar.high (0, d0.high) 1 drest
            let consolidation_high := ch.2
            let consolidation_low := retracement_low
            let range_width_pct :=
              if consolidation_low < consolidation_high then
                (consolidation_high - consolidation_low) / consolidation_high * 100
              else 0
            let range_height :=
              if consolidation_low < consolidation_high then
                consolidation_high - consolidation_low
              else 0
            let upper := consolidation_high * (1 + UPPER_BUFFER)
            let lower := consolidation_low * (1 - LOWER_BUFFER)
            let seg := d0 :: drest
            let closes := seg.map Bar.close
            let closes_in_range :=
              closes.countP fun c =>
                decide (consolidation_low ≤ c) && decide (c ≤ consolidation_high)
            let close_pct := (closes_in_range : ℚ) / (closes.length : ℚ) * 100
            let info4 : ConsInfo :=
              { info3 with
                consolidation_high := consolidation_high
                consolidation_high_position := retracement_low_position + ch.1
                consolidation_low := consolidation_low
                range_width_pct := range_width_pct
                range_height := range_height
                upper_bound_with_buffer := upper
                lower_bound_with_buffer := lower
                breakout_level := consolidation_high
                stop_loss_level := consolidation_low
                close_percentage_in_range := close_pct
                closes_in_range := closes_in_range
                total_days_in_range := closes.length }
            if days_in_consolidation < CONSOLIDATION_MIN_DAYS then
              (false, some .tooShort, info4)
            else if CONSOLIDATION_MAX_DAYS < days_in_consolidation then
              (false, some .tooLong, info4)
            else if seg.any fun b => decide (upper < b.high) || decide (b.low < lower) then
              (false, some .rangeViolation, info4)
            else if close_pct < 70 then
              (false, some .weakCloseDiscipline, info4)
            else
              match s.getLast? with
              | none => (false, some .insufficientData, info4)  -- unreachable
              | some lastBar =>
                (true, none, { info4 with current_price := lastBar.close })

/-- The entry-details dict built when the breakout fires
(signaller.py lines 278-289, minus the symbol and raw date). -/
structure EntryDetailsFired where
  entry_price : ℚ
  breakout_level : ℚ
  stop_loss_level : ℚ
  risk_per_share : ℚ
  risk_percentage : ℚ
  original_peak : ℚ
  breakout_strength : ℚ
  breakout_threshold : ℚ
deriving DecidableEq, Repr

/-- The entry-details dict built when no breakout fires
(signaller.py lines 301-312, minus the symbol). -/
structure EntryDetailsHold where
  current_price : ℚ
  current_high : ℚ
  breakout_level : ℚ
  breakout_threshold : ℚ
  distance_to_breakout : ℚ
  distance_to_breakout_pct : ℚ
  distance_to_threshold : ℚ
  distance_to_threshold_pct : ℚ
  stop_loss_level : ℚ
deriving DecidableEq, Repr

/-- The third/fourth return components of `entry_trigger`. -/
inductive EntryOutcome where
  | noData
  | invalidLevels
  | fired (d : EntryDetailsFired)
  | hold (d : EntryDetailsHold)
deriving DecidableEq, Repr

/-- signaller.py `entry_trigger`.  The returned triple is
(triggered, reported price, details); `none` models the IndexError of
`iloc[-1]` on an empty series and the ZeroDivisionError of
`risk_percentage` when the last close is 0 (both raised, not returned,
by the source).  The breakout test compares the last bar's HIGH against
`breakout_level * (1 + BREAKOUT_BUFFER)`, while the reported entry price is
the last bar's CLOSE. -/
def entry_trigger (s : List Bar) (ci : Option ConsInfo) :
    Option (Bool × ℚ × EntryOutcome) :=
  match ci with
  | none => some (false, 0, .noData)
  | some info =>
    if info.breakout_level ≤ 0 ∨ info.stop_loss_level ≤ 0 then
      some (false, 0, .invalidLevels)
    else
      match s.getLast? with
      | none => none
      | some lastBar =>
        let current_price := lastBar.close
        let current_high := lastBar.high
        if info.breakout_level * (1 + BREAKOUT_BUFFER) < current_high then
          if current_price = 0 then none
          else
            some (true, current_price, .fired
              { entry_price := current_price
                breakout_level := info.breakout_level
                stop_loss_level := info.stop_loss_level
                risk_per_share := current_price - info.stop_loss_level
                risk_percentage :=
                  (current_price - info.stop_loss_level) / current_price * 100
                original_peak := info.peak_price
                breakout_strength :=
                  (current_high - info.breakout_level) / info.breakout_level * 100
                breakout_threshold :=
                  info.breakout_level * (1 + BREAKOUT_BUFFER) })
        else
          let required_price := info.breakout_level * (1 + BREAKOUT_BUFFER)
          some (false, current_price, .hold
            { current_price := current_price
              current_high := current_high
              breakout_level := info.breakout_level
              breakout_threshold := required_price
              distance_to_breakout := info.breakout_level - current_price
              distance_to_breakout_pct :=
                (info.breakout_level - current_price) / info.breakout_level * 100
              distance_to_threshold := required_price - current_price
              distance_to_threshold_pct :=
                (required_price - current_price) / required_price * 100
              stop_loss_level := info.stop_loss_level })

/-! ## Executor: risk-reward and the full trade pipeline (executor.py) -/

/-- The success dict of `calculate_risk_reward`. -/
structure RiskReward where
  risk_per_share : ℚ
  target_1 : ℚ
  reward_1 : ℚ
  rr_1 : ℚ
  target_2 : ℚ
  reward_2 : ℚ
  rr_2 : ℚ
  range_height : ℚ
deriving DecidableEq, Repr

/-- executor.py `TradeExecutor.calculate_risk_reward`: measured-move target 1
one range above the consolidation high; target 2 the original 63-day peak
when it exceeds the consolidation high, else 0.  `.error ()` is the error
dict for a missing/falsy consolidation dict, a non-positive range, or a
non-positive risk. -/
def calculate_risk_reward (entry_price stop_price : ℚ) (ci : Option ConsInfo) :
    Except Unit RiskReward :=
  match ci with
  | none => .error ()
  | some info =>
    if info.consolidation_high ≤ info.consolidation_low then .error ()
    else
      let risk := entry_price - stop_price
      if risk ≤ 0 then .error ()
      else
        let range_height := info.consolidation_high - info.consolidation_low
        let target_1 := info.consolidation_high + range_height
        let reward_1 := target_1 - entry_price
        if info.consolidation_high < info.peak_price then
          .ok
            { risk_per_share := risk
              target_1 := target_1
              reward_1 := reward_1
              rr_1 := reward_1 / risk
              target_2 := info.peak_price
              reward_2 := info.peak_price - entry_price
              rr_2 := (info.peak_price - entry_price) / risk
              range_height := range_height }
        else
          .ok
            { risk_per_share := risk
              target_1 := target_1
              reward_1 := reward_1
              rr_1 := reward_1 / risk
              target_2 := info.peak_price
              reward_2 := 0
              rr_2 := 0
              range_height := range_height }

/-- The entry_details consumed by `execute_trade`:
`entry_details.get('entry_price', 0)` and `.get('entry_date')` — a missing
date is `none`. -/
structure EntryArgs where
  entry_price : ℚ
  entry_idx : Option Nat
deriving DecidableEq, Repr

/-- Terminal statuses of a trade plan.  The source writes POSITION_TOO_SMALL
into `status` when shares = 0 but then unconditionally overwrites it with
READY/SKIP in the final `trade_plan.update`, so only the latter survive. -/
inductive PlanStatus where
  | analyzing
  | invalidEntry
  | stopLossError
  | positionError
  | ready
  | skip
deriving DecidableEq, Repr

/-- One tag per distinct warning/error string `execute_trade` records. -/
inductive PlanNote where
  | invalidEntryData
  | stopCalcFailed
  | positionCalcFailed
  | stopAdjusted
  | zeroShares
  | trailingFailed
deriving DecidableEq, Repr

/-- The trade-plan dict of `execute_trade`.  `timestamp` holds the
`datetime.now()` reading taken when the dict is created; sub-results are
`none` until the corresponding pipeline step stores them (the early-return
plans never reach `trade_plan.update`). -/
structure TradePlan where
  timestamp : ℤ
  status : PlanStatus
  warnings : List PlanNote
  errors : List PlanNote
  entry_price : Option ℚ
  entry_idx : Option Nat
  stop_loss : Option StopDetails
  position : Option PositionDetails
  trailing_stop : Option (Except Unit TrailingInfo)
  risk_reward : Option (Except Unit RiskReward)

/-- The clock-independent part of executor.py `TradeExecutor.execute_trade`:
entry validation, then StopLoss → PositionSize → TrailingStop → RiskReward,
with stop/position errors terminal, the trailing-stop error demoted to a
warning, and the risk-reward result stored as-is.  (The `print` calls write
to stdout and touch no data.) -/
def execute_trade_core (c : ExecConfig) (s : List Bar) (ed : EntryArgs)
    (ci : Option ConsInfo) : TradePlan :=
  let plan0 : TradePlan :=
    { timestamp := 0
      status := .analyzing
      warnings := []
      errors := []
      entry_price := none
      entry_idx := none
      stop_loss := none
      position := none
      trailing_stop := none
      risk_reward := none }
  match ed.entry_idx with
  | none => { plan0 with status := .invalidEntry, errors := [.invalidEntryData] }
  | some eidx =>
    if ed.entry_price ≤ 0 then
      { plan0 with status := .invalidEntry, errors := [.invalidEntryData] }
    else
      match calculate_stop_loss s ed.entry_price eidx with
      | .error _ =>
        { plan0 with status := .stopLossError, errors := [.stopCalcFailed] }
      | .ok sd =>
        let warn1 : List PlanNote :=
          if sd.stop_adjusted then [.stopAdjusted] else []
        match calculate_position_size c ed.entry_price sd.stop_loss_price with
        | .error _ =>
          { plan0 with
            status := .positionError
            errors := [.positionCalcFailed]
            warnings := warn1 }
        | .ok pos =>
          let warn2 := warn1 ++ (if pos.shares = 0 then [.zeroShares] else [])
          let trailing :=
            calculate_trailing_stop s ed.entry_price eidx TRAILING_SMA_PERIOD
          let warn3 := warn2 ++
            (match trailing with
              | .error _ => [.trailingFailed]
              | .ok _ => [])
          let rr := calculate_risk_reward ed.entry_price sd.stop_loss_price ci
          { plan0 with
            status := if 0 < pos.shares then .ready else .skip
            warnings := warn3
            entry_price := some ed.entry_price
            entry_idx := some eidx
            stop_loss := some sd
            position := some pos
            trailing_stop := some trailing
            risk_reward := some rr }

/-- executor.py `TradeExecutor.execute_trade`.  The Python function stamps the
plan with `datetime.now()` taken at call time; `now` makes that ambient
clock reading an explicit input.  The stamp is written into the plan once,
at creation, and never read again, which is exactly what this definition
expresses. -/
def execute_trade (c : ExecConfig) (s : List Bar) (ed : EntryArgs)
    (ci : Option ConsInfo) (now : ℤ) : TradePlan :=
  { execute_trade_core c s ed ci with timestamp := now }

/-- Forget a plan's timestamp (set it to a fixed value). -/
def eraseTimestamp (p : TradePlan) : TradePlan := { p with timestamp := 0 }

/-! ## Concrete series and inputs used by witnesses and counterexamples -/

/-- A one-bar series used to witness C9. -/
def shortSeries : List Bar := [⟨10, 5, 8, 1000⟩]

/-- Fourteen identical bars (high 10, low 5, close 7): every true-range entry
is 5, including the row-0 fallback `high - low = 5`, so ATR(14) is already
defined (value 5) at index 13. -/
def atrSeries : List Bar := List.replicate 14 ⟨10, 5, 7, 0⟩

/-- 63-bar series whose 63-bar peak is bar 0 (high 100, not the last bar) and
whose retracement low (low 80, a 20% retracement) sits on the LAST bar. -/
def lowOnLastBarSeries : List Bar :=
  ⟨100, 90, 95, 1000⟩ ::
    (List.replicate 61 ⟨98, 90, 95, 1000⟩ ++ [⟨98, 80, 95, 1000⟩])

/-- A one-bar series that gaps far above the breakout level intrabar (high 11)
but closes back at 5, far below the stop-loss level 9 of `gapConsInfo`. -/
def gapBreakoutSeries : List Bar := [⟨11, 4, 5, 1000⟩]

/-- Consolidation levels for the C10 counter-scenario: positive breakout and
stop levels, stop below breakout. -/
def gapConsInfo : ConsInfo :=
  { breakout_level := 10, stop_loss_level := 9, peak_price := 12 }

/-- One-bar series for the C4 witness: high 21 beats the 2%-buffered breakout
threshold 20.4, close 15. -/
def firedSeries : List Bar := [⟨21, 12, 15, 500⟩]

/-- Consolidation levels for the C4 witness. -/
def firedConsInfo : ConsInfo :=
  { breakout_level := 20, stop_loss_level := 13, peak_price := 25 }

/-- One-bar series for the C7 witness: high 10 stays below the buffered
threshold 10.2, close 9. -/
def holdSeries : List Bar := [⟨10, 8, 9, 500⟩]

/-- Consolidation levels for the C7 witness. -/
def holdConsInfo : ConsInfo :=
  { breakout_level := 10, stop_loss_level := 8, peak_price := 12 }

/-- Fourteen identical bars with a flat bottom (low = close = 5, high 10):
ATR(14) at index 13 is 5, and the entry bar's low equals its close, so the
low-of-day stop equals the entry price. -/
def flatEntrySeries : List Bar := List.replicate 14 ⟨10, 5, 5, 0⟩

/-- Ten post-entry bars for the C8 witness: nine closes at 10, then a close
at 1, which falls below the 10-bar SMA 91/10 at offset 9. -/
def trailingSeries : List Bar :=
  List.replicate 9 ⟨12, 8, 10, 0⟩ ++ [⟨12, 1, 1, 0⟩]

/-- Fourteen identical bars (high 10, low 9, close 10) for the C6
counterexample: entering at index 0 with price 10 runs the whole pipeline to
a READY plan (stop = low-of-day 9, 2000 shares, no trailing exit). -/
def readySeries : List Bar := List.replicate 14 ⟨10, 9, 10, 1000⟩

/-- Entry arguments for the C6 counterexample: price 10, entry at index 0. -/
def readyEntryArgs : EntryArgs := ⟨10, some 0⟩

/-! ## Theorems -/

/-- Claim C9: for every series with at least 1 and fewer than 50 bars, the
liquidity check and the trend check both return failed (50-bar average volume
falls back to 0, below the 300,000 minimum — or the price check fails even
earlier — and the 50-bar SMA falls back to 0, tripping the insufficient-data
guard), and neither raises an exception (both return `some`). -/
theorem c9_short_series_both_filters_fail (s : List Bar)
    (h1 : 1 ≤ s.length) (h2 : s.length < 50) :
    (∃ r, liquidity_filter s = some (false, r)) ∧
      trend_filter s = some (false, ScreenReason.insufficientSma) := by
  have hne : s ≠ [] := List.ne_nil_of_length_pos (by omega)
  obtain ⟨b, hb⟩ := Option.isSome_iff_exists.mp (List.getLast?_isSome.mpr hne)
  have h2' : s.length < SMA_PERIOD := by
    simpa [SMA_PERIOD] using h2
  have hvol : calculate_50_day_average_volume s = 0 := by
    unfold calculate_50_day_average_volume
    rw [if_pos h2']
  have hsma : calculate_50_day_sma s = 0 := by
    unfold calculate_50_day_sma
    rw [if_pos h2']
  constructor
  · unfold liquidity_filter
    rw [hb]
    dsimp only
    by_cases hp : b.close < MIN_PRICE
    · exact ⟨.priceTooLow, by rw [if_pos hp]⟩
    · refine ⟨.volumeTooLow, ?_⟩
      rw [if_neg hp, hvol, if_pos (by norm_num [MIN_VOLUME])]
  · unfold trend_filter
    rw [hb]
    dsimp only
    rw [hsma, if_pos rfl]

theorem c9_short_series_witness :
    (∃ r, liquidity_filter shortSeries = some (false, r)) ∧
      trend_filter shortSeries = some (false, ScreenReason.insufficientSma) :=
  c9_short_series_both_filters_fail shortSeries (by decide) (by decide)

/-- Claim C2: for every configuration with positive equity and risk budget and
every entry_price > stop_loss_price > 0, `calculate_position_size` succeeds
with `shares = ⌊max_risk_amount / (entry_price - stop_loss_price)⌋`, a
non-negative count, and the resulting actual risk
`shares * (entry_price - stop_loss_price)` never exceeds `max_risk_amount`;
for `entry_price ≤ stop_loss_price` it returns the typed error instead of
dividing. -/
theorem c2_position_size_floor_and_cap (c : ExecConfig)
    (_hE : 0 < c.account_equity) (hM : 0 < c.max_risk_amount) :
    (∀ entry_price stop_loss_price : ℚ, 0 < stop_loss_price →
      stop_loss_price < entry_price →
      ∃ pd, calculate_position_size c entry_price stop_loss_price = .ok pd ∧
        pd.shares = ⌊c.max_risk_amount / (entry_price - stop_loss_price)⌋ ∧
        0 ≤ pd.shares ∧
        (pd.shares : ℚ) * (entry_price - stop_loss_price) ≤ c.max_risk_amount) ∧
    (∀ entry_price stop_loss_price : ℚ, entry_price ≤ stop_loss_price →
      calculate_position_size c entry_price stop_loss_price = .error ()) := by
  constructor
  · intro e sl hs hlt
    have hrisk : (0 : ℚ) < e - sl := by linarith
    have hq : (0 : ℚ) ≤ c.max_risk_amount / (e - sl) :=
      div_nonneg (le_of_lt hM) (le_of_lt hrisk)
    have hfloor : pythonInt (c.max_risk_amount / (e - sl)) =
        ⌊c.max_risk_amount / (e - sl)⌋ := by
      unfold pythonInt
      rw [if_pos hq]
    unfold calculate_position_size
    rw [if_neg (by linarith)]
    dsimp only
    refine ⟨_, rfl, hfloor, ?_, ?_⟩
    · rw [hfloor]
      exact_mod_cast Int.floor_nonneg.mpr hq
    · rw [hfloor]
      have h1 : (⌊c.max_risk_amount / (e - sl)⌋ : ℚ) ≤ c.max_risk_amount / (e - sl) :=
        Int.floor_le _
      calc (⌊c.max_risk_amount / (e - sl)⌋ : ℚ) * (e - sl)
          ≤ c.max_risk_amount / (e - sl) * (e - sl) :=
            mul_le_mul_of_nonneg_right h1 (le_of_lt hrisk)
        _ = c.max_risk_amount := div_mul_cancel₀ _ (ne_of_gt hrisk)
  · intro e sl hle
    unfold calculate_position_size
    rw [if_pos hle]

theorem c2_position_size_witness :
    ∃ pd, calculate_position_size defaultConfig 100 95 = .ok pd ∧
      pd.shares = ⌊defaultConfig.max_risk_amount / ((100 : ℚ) - 95)⌋ ∧
      0 ≤ pd.shares ∧
      (pd.shares : ℚ) * ((100 : ℚ) - 95) ≤ defaultConfig.max_risk_amount :=
  (c2_position_size_floor_and_cap defaultConfig
      (by norm_num [defaultConfig, ACCOUNT_EQUITY])
      (by norm_num [defaultConfig, ExecConfig.max_risk_amount, ACCOUNT_EQUITY,
        MAX_RISK_PERCENT])).1
    100 95 (by norm_num) (by norm_num)

theorem trueRangeAux_length (prev : Bar) (l : List Bar) :
    (trueRangeAux prev l).length = l.length := by
  induction l generalizing prev with
  | nil => rfl
  | cons b rest ih => simp [trueRangeAux, ih]

theorem trueRangeList_length (s : List Bar) :
    (trueRangeList s).length = s.length := by
  cases s with
  | nil => rfl
  | cons b rest => simp [trueRangeList, trueRangeAux_length]

theorem trueRangeAux_nonneg (prev : Bar) (l : List Bar)
    (h : ∀ b ∈ l, b.low ≤ b.high) : ∀ x ∈ trueRangeAux prev l, 0 ≤ x := by
  induction l generalizing prev with
  | nil =>
    intro x hx
    simp [trueRangeAux] at hx
  | cons b rest ih =>
    intro x hx
    simp only [trueRangeAux, List.mem_cons] at hx
    rcases hx with hx | hx
    · have hb : (0 : ℚ) ≤ b.high - b.low :=
        sub_nonneg.mpr (h b (List.mem_cons_self b rest))
      exact hx ▸ le_trans hb (le_max_left _ _)
    · exact ih b (fun c hc => h c (List.mem_cons_of_mem b hc)) x hx

theorem trueRangeList_nonneg (s : List Bar)
    (h : ∀ b ∈ s, b.low ≤ b.high) : ∀ x ∈ trueRangeList s, 0 ≤ x := by
  cases s with
  | nil =>
    intro x hx
    simp [trueRangeList] at hx
  | cons b rest =>
    intro x hx
    simp only [trueRangeList, List.mem_cons] at hx
    rcases hx with hx | hx
    · have hb : (0 : ℚ) ≤ b.high - b.low :=
        sub_nonneg.mpr (h b (List.mem_cons_self b rest))
      exact hx ▸ hb
    · exact trueRangeAux_nonneg b rest
        (fun c hc => h c (List.mem_cons_of_mem b hc)) x hx

theorem meanQ_nonneg (l : List ℚ) (h : ∀ x ∈ l, 0 ≤ x) : 0 ≤ meanQ l := by
  unfold meanQ
  exact div_nonneg (List.sum_nonneg h) (by exact_mod_cast Nat.zero_le _)

theorem rollingMean_getElem (p : Nat) (l : List ℚ) (i : Nat) (h : i < l.length) :
    (rollingMean p l)[i]? =
      some (if p ≤ i + 1 then some (meanQ ((l.drop (i + 1 - p)).take p))
        else none) := by
  unfold rollingMean
  rw [List.getElem?_map, List.getElem?_range h]
  rfl

theorem rollingMean_getElem_none (p : Nat) (l : List ℚ) (i : Nat)
    (h : ¬ i < l.length) : (rollingMean p l)[i]? = none := by
  unfold rollingMean
  apply List.getElem?_eq_none
  simpa using Nat.le_of_not_lt h

/-- Claim C3 counterexample: on a concrete 14-bar series, ATR(14) is already
defined at index 13 (= period - 1), inside "the first `period` bar indices"
that the claim says are undefined; pandas' row-wise max skips the NaN
previous-close terms at row 0, so `true_range[0] = high - low` is a number
and the first full rolling window ends at index `period - 1`, not `period`. -/
theorem c3_atr_defined_at_period_minus_one :
    (calculate_atr atrSeries 14)[13]? = some (some 5) ∧
      atrSeries.length = 14 := by
  constructor
  · decide
  · decide

/-- Claim C3 (amended): ATR with period `p` is undefined at the first `p - 1`
bar indices only; the first defined value sits at index `p - 1` and is the
mean of `true_range[0 .. p-1]`, where `true_range[0]` — lacking a previous
close — falls back to `high[0] - low[0]` instead of being excluded (pandas'
row-wise max skips the NaN previous-close terms); and every defined ATR value
is non-negative given the bar invariant `low ≤ high`. -/
theorem c3_atr_first_window_and_nonneg (s : List Bar) (p : Nat) (hp : 1 ≤ p) :
    (∀ i, i < s.length → i + 1 < p → (calculate_atr s p)[i]? = some none) ∧
    (p ≤ s.length →
      (calculate_atr s p)[p - 1]? =
        some (some (meanQ ((trueRangeList s).take p)))) ∧
    ((∀ b ∈ s, b.low ≤ b.high) →
      ∀ (i : Nat) (v : ℚ), (calculate_atr s p)[i]? = some (some v) → 0 ≤ v) := by
  refine ⟨?_, ?_, ?_⟩
  · intro i hi hip
    unfold calculate_atr
    rw [rollingMean_getElem p _ i (by rwa [trueRangeList_length])]
    rw [if_neg (by omega)]
  · intro hps
    unfold calculate_atr
    have hlt : p - 1 < (trueRangeList s).length := by
      rw [trueRangeList_length]
      omega
    rw [rollingMean_getElem p _ (p - 1) hlt, if_pos (by omega),
      show p - 1 + 1 - p = 0 by omega, List.drop_zero]
  · intro hinv i v hv
    unfold calculate_atr at hv
    by_cases hi : i < (trueRangeList s).length
    · rw [rollingMean_getElem p _ i hi] at hv
      injection hv with hv1
      split at hv1
      · injection hv1 with hv2
        subst hv2
        apply meanQ_nonneg
        intro x hx
        exact trueRangeList_nonneg s hinv x
          (((List.take_sublist _ _).trans (List.drop_sublist _ _)).subset hx)
      · cases hv1
    · rw [rollingMean_getElem_none p _ i hi] at hv
      cases hv

theorem c3_atr_amended_witness :
    (calculate_atr atrSeries 14)[5]? = some none ∧
      (calculate_atr atrSeries 14)[13]? =
        some (some (meanQ ((trueRangeList atrSeries).take 14))) ∧
      (0 : ℚ) ≤ 5 := by
  have h := c3_atr_first_window_and_nonneg atrSeries 14 (by decide)
  exact ⟨h.1 5 (by decide) (by decide), h.2.1 (by decide),
    h.2.2 (by decide) 13 5 (by decide)⟩

/-- Claim C1: evaluation at the failing input.  On `lowOnLastBarSeries` the
63-bar peak is bar 0 (not the last bar) and the retracement (20%) is under
the 25% cap, with the retracement low on the most recent bar; the claim (and
the source's own comment above signaller.py line 150, and
trading_strategy.py's `current_position - retracement_low_position`) says
`days_in_consolidation` should then be `last_index - retracement_low_index
= 0`, but signaller.py line 150 computes `len(stock_data) -
retracement_low_position = 1`.  The stage still fails TOO_SHORT here, but
with the wrong count, and the off-by-one shifts both duration bounds. -/
theorem c1_days_in_consolidation_off_by_one :
    (consolidation lowOnLastBarSeries).1 = false ∧
      (consolidation lowOnLastBarSeries).2.1 = some ConsFailure.tooShort ∧
      (consolidation lowOnLastBarSeries).2.2.peak_position = 0 ∧
      (consolidation lowOnLastBarSeries).2.2.retracement_pct = 20 ∧
      (consolidation lowOnLastBarSeries).2.2.retracement_low_position =
        lowOnLastBarSeries.length - 1 ∧
      (consolidation lowOnLastBarSeries).2.2.days_in_consolidation = 1 := by
  refine ⟨?_, ?_, ?_, ?_, ?_, ?_⟩ <;> decide

/-- Claim C4: with positive breakout and stop levels and a non-empty series
(whose last close is non-zero, so the risk-percentage division is defined),
`entry_trigger` fires exactly when the last bar's HIGH strictly exceeds
`breakout_level * 1.02`, and on firing reports entry_price = last CLOSE and
`risk_per_share = close - stop_loss_level`. -/
theorem c4_breakout_iff_high_beats_buffer (s : List Bar) (info : ConsInfo)
    (b : Bar) (hbl : 0 < info.breakout_level) (hsl : 0 < info.stop_loss_level)
    (hc : b.close ≠ 0) (hb : s.getLast? = some b) :
    (info.breakout_level * (1 + BREAKOUT_BUFFER) < b.high →
      entry_trigger s (some info) = some (true, b.close, .fired
        { entry_price := b.close
          breakout_level := info.breakout_level
          stop_loss_level := info.stop_loss_level
          risk_per_share := b.close - info.stop_loss_level
          risk_percentage := (b.close - info.stop_loss_level) / b.close * 100
          original_peak := info.peak_price
          breakout_strength :=
            (b.high - info.breakout_level) / info.breakout_level * 100
          breakout_threshold :=
            info.breakout_level * (1 + BREAKOUT_BUFFER) })) ∧
    (¬ info.breakout_level * (1 + BREAKOUT_BUFFER) < b.high →
      ∃ d, entry_trigger s (some info) = some (false, b.close, .hold d)) := by
  unfold entry_trigger
  dsimp only
  rw [if_neg (by push_neg; exact ⟨hbl, hsl⟩), hb]
  dsimp only
  constructor
  · intro h
    rw [if_pos h, if_neg hc]
  · intro h
    rw [if_neg h]
    exact ⟨_, rfl⟩

theorem c4_breakout_witness :
    entry_trigger firedSeries (some firedConsInfo) =
      some (true, 15, .fired ⟨15, 20, 13, 2, 40/3, 25, 5, 102/5⟩) :=
  (c4_breakout_iff_high_beats_buffer firedSeries firedConsInfo ⟨21, 12, 15, 500⟩
      (by decide) (by decide) (by decide) (by decide)).1 (by decide)

/-- Claim C7: with positive breakout and stop levels and a last bar whose
high does not exceed `breakout_level * 1.02`, `entry_trigger` returns
triggered = false together with the distance-to-threshold percentage (and
the rest of the monitoring details) rather than raising — i.e. it returns
`some` with a `hold` payload. -/
theorem c7_no_breakout_reports_distance (s : List Bar) (info : ConsInfo)
    (b : Bar) (hbl : 0 < info.breakout_level) (hsl : 0 < info.stop_loss_level)
    (hb : s.getLast? = some b)
    (hno : b.high ≤ info.breakout_level * (1 + BREAKOUT_BUFFER)) :
    entry_trigger s (some info) = some (false, b.close, .hold
      { current_price := b.close
        current_high := b.high
        breakout_level := info.breakout_level
        breakout_threshold := info.breakout_level * (1 + BREAKOUT_BUFFER)
        distance_to_breakout := info.breakout_level - b.close
        distance_to_breakout_pct :=
          (info.breakout_level - b.close) / info.breakout_level * 100
        distance_to_threshold :=
          info.breakout_level * (1 + BREAKOUT_BUFFER) - b.close
        distance_to_threshold_pct :=
          (info.breakout_level * (1 + BREAKOUT_BUFFER) - b.close) /
            (info.breakout_level * (1 + BREAKOUT_BUFFER)) * 100
        stop_loss_level := info.stop_loss_level }) := by
  unfold entry_trigger
  dsimp only
  rw [if_neg (by push_neg; exact ⟨hbl, hsl⟩), hb]
  dsimp only
  rw [if_neg (not_lt.mpr hno)]

theorem c7_no_breakout_witness :
    entry_trigger holdSeries (some holdConsInfo) =
      some (false, 9, .hold ⟨9, 10, 10, 51/5, 1, 10, 6/5, 200/17, 8⟩) :=
  c7_no_breakout_reports_distance holdSeries holdConsInfo ⟨10, 8, 9, 500⟩
    (by decide) (by decide) (by decide) (by decide)

/-- Claim C10: a concrete series and consolidation descriptor with positive
breakout and stop levels on which `entry_trigger` fires (the last bar's high
11 beats the buffered threshold 10.2) yet reports `risk_per_share = 5 - 9 =
-4 ≤ 0`: the trigger checks only the intrabar high, the reported entry price
is the close, and nothing requires that close to exceed the stop level. -/
theorem c10_fired_with_nonpositive_risk :
    ∃ d, entry_trigger gapBreakoutSeries (some gapConsInfo) =
        some (true, 5, .fired d) ∧
      d.risk_per_share ≤ 0 ∧
      0 < gapConsInfo.breakout_level ∧ 0 < gapConsInfo.stop_loss_level :=
  ⟨⟨5, 10, 9, -4, -80, 12, 10, 51/5⟩, by decide, by decide, by decide, by decide⟩

/-- Claim C5 counterexample: entering `flatEntrySeries` at its last bar with
entry_price 5 (the close) gives low-of-day stop 5 = entry_price, i.e. a stop
that is ≥ entry_price, yet `calculate_stop_loss` returns it as a SUCCESS
(ATR = 5, stop_distance = 0 ≤ ATR, no adjustment) — there is no
INVALID_STOP path in the function. -/
theorem c5_invalid_stop_returned_as_success :
    ∃ sd, calculate_stop_loss flatEntrySeries 5 13 = Except.ok sd ∧
      (5 : ℚ) ≤ sd.stop_loss_price :=
  ⟨⟨5, false, 5, some 5, 0, false, some 0⟩, rfl, by decide⟩

/-- Claim C5 (amended): `calculate_stop_loss` performs no validation of the
computed stop at all — whenever the entry bar exists and the ATR value it
uses is a (non-zero) number, it succeeds with the computed stop (ATR-capped
or low-of-day) even when that stop is ≤ 0 or ≥ entry_price; an invalid stop
is only rejected downstream, by `calculate_position_size`'s
`entry_price ≤ stop` check. -/
theorem c5_stop_loss_never_validates (s : List Bar) (entry_price : ℚ)
    (entry_idx : Nat) (bar : Bar) (a : ℚ)
    (hbar : s[entry_idx]? = some bar)
    (hatr : ((calculate_atr s ATR_PERIOD)[entry_idx]?).join = some a)
    (ha : ¬ a = 0) :
    ∃ sd, calculate_stop_loss s entry_price entry_idx = Except.ok sd ∧
      sd.stop_loss_price =
        (if a < entry_price - bar.low then entry_price - a else bar.low) := by
  unfold calculate_stop_loss
  rw [hbar]
  dsimp only
  rw [hatr]
  dsimp only
  rw [if_neg ha]
  by_cases hlt : a < entry_price - bar.low
  · rw [if_pos hlt, if_pos hlt]
    exact ⟨_, rfl, rfl⟩
  · rw [if_neg hlt, if_neg hlt]
    exact ⟨_, rfl, rfl⟩

theorem c5_stop_loss_amended_witness :
    ∃ sd, calculate_stop_loss flatEntrySeries 20 13 = Except.ok sd ∧
      sd.stop_loss_price =
        (if (5 : ℚ) < 20 - Bar.low ⟨10, 5, 5, 0⟩ then 20 - 5
          else Bar.low ⟨10, 5, 5, 0⟩) :=
  c5_stop_loss_never_validates flatEntrySeries 20 13 ⟨10, 5, 5, 0⟩ 5
    (by decide) (by decide) (by decide)

theorem exitScanIdx_none_spec (closes : List ℚ) (e : ℚ) (p : Nat) :
    ∀ k i, closes.length - i ≤ k →
      exitScanIdx closes e p i = none →
      ∀ j, i ≤ j → j < closes.length →
        ¬ (p ≤ j + 1 ∧ closes.getD j 0 < smaAt closes p j) := by
  intro k
  induction k with
  | zero =>
    intro i hk _ j hij hj
    omega
  | succ k ih =>
    intro i hk hscan j hij hj
    unfold exitScanIdx at hscan
    by_cases hi : i < closes.length
    · rw [dif_pos hi] at hscan
      by_cases hc : p ≤ i + 1 ∧ closes.getD i 0 < smaAt closes p i
      · rw [if_pos hc] at hscan
        cases hscan
      · rw [if_neg hc] at hscan
        rcases Nat.eq_or_lt_of_le hij with rfl | hlt
        · exact hc
        · exact ih (i + 1) (by omega) hscan j hlt hj
    · omega

theorem exitScanIdx_some_spec (closes : List ℚ) (e : ℚ) (p : Nat) :
    ∀ k i es, closes.length - i ≤ k →
      exitScanIdx closes e p i = some es →
      i ≤ es.exit_offset ∧ es.exit_offset < closes.length ∧
        p ≤ es.exit_offset + 1 ∧
        closes.getD es.exit_offset 0 < smaAt closes p es.exit_offset ∧
        es.days_held = es.exit_offset + 1 ∧
        es.exit_price = closes.getD es.exit_offset 0 ∧
        es.sma_10 = smaAt closes p es.exit_offset ∧
        ∀ j, i ≤ j → j < es.exit_offset →
          ¬ (p ≤ j + 1 ∧ closes.getD j 0 < smaAt closes p j) := by
  intro k
  induction k with
  | zero =>
    intro i es hk hscan
    unfold exitScanIdx at hscan
    rw [dif_neg (by omega)] at hscan
    cases hscan
  | succ k ih =>
    intro i es hk hscan
    unfold exitScanIdx at hscan
    by_cases hi : i < closes.length
    · rw [dif_pos hi] at hscan
      by_cases hc : p ≤ i + 1 ∧ closes.getD i 0 < smaAt closes p i
      · rw [if_pos hc] at hscan
        injection hscan with h
        subst h
        refine ⟨Nat.le_refl _, hi, hc.1, hc.2, rfl, rfl, rfl, ?_⟩
        intro j hij hji
        dsimp only at hji
        omega
      · rw [if_neg hc] at hscan
        obtain ⟨h1, h2, h3, h4, h5, h6, h7, h8⟩ := ih (i + 1) es (by omega) hscan
        refine ⟨by omega, h2, h3, h4, h5, h6, h7, ?_⟩
        intro j hij hji
        rcases Nat.eq_or_lt_of_le hij with rfl | hlt
        · exact hc
        · exact h8 j hlt hji
    · rw [dif_neg hi] at hscan
      cases hscan

/-- Claim C8: for every series containing the entry index with at least
`TRAILING_SMA_PERIOD` bars from it onward (positive closes, non-zero entry
price), `calculate_trailing_stop` reports at most one exit signal — the
EARLIEST offset `≥ sma_period - 1` in the post-entry segment whose close is
strictly below its rolling SMA, recorded with `days_held = offset + 1`;
later crossings are not reported; no crossing means an empty signal list;
and with fewer than `sma_period` post-entry bars it returns the typed
insufficient-data error. -/
theorem c8_trailing_stop_first_crossing (s : List Bar) (entry_price : ℚ)
    (entry_idx : Nat) (hidx : entry_idx < s.length) (hE : entry_price ≠ 0)
    (hpos : ∀ b ∈ s, 0 < b.close) :
    ((s.drop entry_idx).length < TRAILING_SMA_PERIOD →
      calculate_trailing_stop s entry_price entry_idx TRAILING_SMA_PERIOD =
        .error ()) ∧
    (TRAILING_SMA_PERIOD ≤ (s.drop entry_idx).length →
      ∃ ti, calculate_trailing_stop s entry_price entry_idx TRAILING_SMA_PERIOD =
          .ok ti ∧
        ti.exit_signals.length ≤ 1 ∧
        (∀ es ∈ ti.exit_signals,
          TRAILING_SMA_PERIOD ≤ es.exit_offset + 1 ∧
          es.exit_offset < ((s.drop entry_idx).map Bar.close).length ∧
          ((s.drop entry_idx).map Bar.close).getD es.exit_offset 0 <
            smaAt ((s.drop entry_idx).map Bar.close) TRAILING_SMA_PERIOD
              es.exit_offset ∧
          es.days_held = es.exit_offset + 1 ∧
          ∀ j, j < es.exit_offset →
            ¬ (TRAILING_SMA_PERIOD ≤ j + 1 ∧
              ((s.drop entry_idx).map Bar.close).getD j 0 <
                smaAt ((s.drop entry_idx).map Bar.close) TRAILING_SMA_PERIOD j)) ∧
        (ti.exit_signals = [] →
          ∀ j, j < ((s.drop entry_idx).map Bar.close).length →
            ¬ (TRAILING_SMA_PERIOD ≤ j + 1 ∧
              ((s.drop entry_idx).map Bar.close).getD j 0 <
                smaAt ((s.drop entry_idx).map Bar.close) TRAILING_SMA_PERIOD j))) := by
  have hne : s ≠ [] := List.ne_nil_of_length_pos (by omega)
  obtain ⟨lb, hlb⟩ := Option.isSome_iff_exists.mp (List.getLast?_isSome.mpr hne)
  have hlbpos : 0 < lb.close := hpos lb (List.mem_of_mem_getLast? hlb)
  constructor
  · intro hlen
    unfold calculate_trailing_stop
    rw [if_pos hidx]
    dsimp only
    rw [if_pos hlen]
  · intro hlen
    unfold calculate_trailing_stop
    rw [if_pos hidx]
    dsimp only
    rw [if_neg (not_lt.mpr hlen), hlb]
    dsimp only
    rw [if_neg (ne_of_gt hlbpos), if_neg (fun hand => hE hand.1)]
    refine ⟨_, rfl, ?_, ?_, ?_⟩
    · dsimp only
      cases exitScanIdx ((s.drop entry_idx).map Bar.close) entry_price
          TRAILING_SMA_PERIOD 0 with
      | none => simp [Option.toList]
      | some es => simp [Option.toList]
    · dsimp only
      cases ho : exitScanIdx ((s.drop entry_idx).map Bar.close) entry_price
          TRAILING_SMA_PERIOD 0 with
      | none =>
        intro es hes
        simp [Option.toList] at hes
      | some es0 =>
        intro es hes
        simp only [Option.toList, List.mem_singleton] at hes
        subst hes
        obtain ⟨_, h2, h3, h4, h5, _, _, h8⟩ :=
          exitScanIdx_some_spec ((s.drop entry_idx).map Bar.close) entry_price
            TRAILING_SMA_PERIOD ((s.drop entry_idx).map Bar.close).length 0 es
            (by omega) ho
        exact ⟨h3, h2, h4, h5, fun j hj => h8 j (Nat.zero_le j) hj⟩
    · dsimp only
      cases ho : exitScanIdx ((s.drop entry_idx).map Bar.close) entry_price
          TRAILING_SMA_PERIOD 0 with
      | none =>
        intro _ j hj
        exact exitScanIdx_none_spec ((s.drop entry_idx).map Bar.close)
          entry_price TRAILING_SMA_PERIOD
          ((s.drop entry_idx).map Bar.close).length 0 (by omega) ho j
          (Nat.zero_le j) hj
      | some es0 =>
        intro hnil
        simp [Option.toList] at hnil

theorem c8_trailing_stop_witness :
    (0 : Nat) < trailingSeries.length ∧
      TRAILING_SMA_PERIOD ≤ (trailingSeries.drop 0).length ∧
      ∃ ti, calculate_trailing_stop trailingSeries 10 0 TRAILING_SMA_PERIOD =
          Except.ok ti ∧
        ti.exit_signals.length ≤ 1 := by
  refine ⟨by decide, by decide, ?_⟩
  obtain ⟨ti, hok, hlen, _⟩ :=
    (c8_trailing_stop_first_crossing trailingSeries 10 0 (by decide)
        (by decide) (by decide)).2 (by decide)
  exact ⟨ti, hok, hlen⟩

/-- Claim C6 counterexample: two calls of `execute_trade` on the SAME
unmodified series with the SAME arguments are not bit-identical when the
wall clock has moved between the calls — the plan embeds the
`datetime.now()` reading of each call in its `timestamp` field. -/
theorem c6_execute_trade_timestamp_differs :
    execute_trade defaultConfig readySeries readyEntryArgs none 0 ≠
      execute_trade defaultConfig readySeries readyEntryArgs none 1 := by
  intro h
  have ht := congrArg TradePlan.timestamp h
  simp only [execute_trade] at ht
  exact absurd ht (by decide)

/-- Claim C6 (amended): apart from the timestamp field — which records the
wall-clock instant of the call and therefore differs between calls — the
result of `execute_trade` depends only on its arguments: erasing the
timestamp, two calls at any two clock readings on the same series and
arguments agree bit for bit.  (The screener and signaller take no clock at
all, so their repeated calls are identical by definition, and no stage
mutates the series — every embedded function only reads it.) -/
theorem c6_execute_trade_deterministic_modulo_timestamp (c : ExecConfig)
    (s : List Bar) (ed : EntryArgs) (ci : Option ConsInfo) (t₁ t₂ : ℤ) :
    eraseTimestamp (execute_trade c s ed ci t₁) =
      eraseTimestamp (execute_trade c s ed ci t₂) := rfl
